import Mathlib

/-!
Shallow embedding of the `attest` Go assertion library (tests.go,
error_cases.go) for checking its natural-language specification.

Modelling conventions:
* A Go `interface{}` operand is a `GoVal`: the supported numeric kinds
  carry their mathematical value (`Int` for the integer kinds, `Rat` for
  the two float kinds, so every representable non-NaN float is covered and
  Go's `<`, `>`, `==` on them coincide with the `Rat` order), plus the
  non-numeric kinds the claims need (string, bool, complex128, error,
  function values).
* Go strings that flow into message positions are kept symbolic as
  `GoStr`: either a literal, or the result of `fmt.Sprintf(tmpl, args)`
  (constructor `fmtd`).  No rendering of format verbs is modelled; a
  diagnostic is recorded structurally, which is exactly what the
  message-resolution claims are about.
* The mutable `*testing.T` is a `TestState`: the list of recorded
  failures (each `t.Fail()` / `t.Errorf` appends one `Diag`).
* Control flow out of an assertion is a `Res`: normal return (`ok`),
  a propagating Go panic (`panicked`), or `t.FailNow()`'s hard stop of
  the test unit (`fatal`).
* Go `==`/`!=` on interface operands is partial (`goEq`): identical but
  uncomparable dynamic types (func values here) panic at run time; on
  comparable kinds it is decidable value equality, IEEE NaN being the one
  self-unequal Go value and outside the `Rat` float model.
-/

namespace Attest

/-- A Go value at the `interface{}` boundary, as far as the claims need. -/
inductive GoVal where
  | intV (n : Int)
  | int8V (n : Int)
  | int16V (n : Int)
  | int32V (n : Int)
  | int64V (n : Int)
  | float32V (x : Rat)
  | float64V (x : Rat)
  | strV (s : String)
  | boolV (b : Bool)
  | complex128V (re im : Rat)
  | errV (e : String)
  | funcV (fid : Nat)
  deriving DecidableEq, Repr

/-- The Go `fmt.Sprintf("%T", val)` (function `typeOf` in tests.go): the
runtime type name of the value.  Only equality/difference of these strings
is ever consumed by the library. -/
def typeOf : GoVal → String
  | .intV _ => "int"
  | .int8V _ => "int8"
  | .int16V _ => "int16"
  | .int32V _ => "int32"
  | .int64V _ => "int64"
  | .float32V _ => "float32"
  | .float64V _ => "float64"
  | .strV _ => "string"
  | .boolV _ => "bool"
  | .complex128V _ _ => "complex128"
  | .errV _ => "*errors.errorString"
  | .funcV _ => "func(...interface \x7b\x7d)"

/-- The closed set of numeric kinds the ordering/sign checks dispatch on
(the spec's NumericKind / TypeDispatcher `classify`). -/
inductive NumKind where
  | i | i8 | i16 | i32 | i64 | f32 | f64
  deriving DecidableEq, Repr

/-- Classification of a value into a supported numeric kind, mirroring the
`switch variable.(type)` dispatch in `GreaterThan`/`LessThan`; `none` is
the `default:` (unsupported) branch. -/
def classify : GoVal → Option NumKind
  | .intV _ => some .i
  | .int8V _ => some .i8
  | .int16V _ => some .i16
  | .int32V _ => some .i32
  | .int64V _ => some .i64
  | .float32V _ => some .f32
  | .float64V _ => some .f64
  | _ => none

/-- The numeric value of a supported operand, embedded into `Rat`
(order-preserving on each kind); 0 for unsupported kinds. -/
def toRat : GoVal → Rat
  | .intV n => (n : Rat)
  | .int8V n => (n : Rat)
  | .int16V n => (n : Rat)
  | .int32V n => (n : Rat)
  | .int64V n => (n : Rat)
  | .float32V x => x
  | .float64V x => x
  | _ => 0

/-- A Go string in a message position: either a literal, or the (eager)
result of `fmt.Sprintf(tmpl, args)`, kept symbolic. -/
inductive GoStr where
  | lit (s : String)
  | fmtd (tmpl : String) (args : List GoVal)
  deriving DecidableEq, Repr

/-- One recorded failure diagnostic: either a message printed as-is
(`fmt.Println(message)` / `log.Println`), or a template printed with
format arguments (`fmt.Printf(message, formatters...)` / `log.Printf` /
`t.Errorf`). -/
inductive Diag where
  | plain (s : GoStr)
  | fmtd (tmpl : GoStr) (args : List GoVal)
  deriving DecidableEq, Repr

/-- The observable state of the enclosing `*testing.T`: the failures
recorded so far, in order (each `t.Fail()` appends the diagnostic emitted
alongside it). -/
structure TestState where
  failures : List Diag
  deriving DecidableEq, Repr

/-- Record one failure (the diagnostic emission followed by `t.Fail()` /
the single `t.Errorf` call). -/
def TestState.record (s : TestState) (d : Diag) : TestState :=
  ⟨s.failures ++ [d]⟩

/-- A Go runtime panic that propagates out of an assertion call:
a failed `.(T)` type assertion, an out-of-range index, or `==`/`!=` on
interface operands of an identical but uncomparable dynamic type
(runtime error: comparing uncomparable type). -/
inductive GoPanic where
  | typeAssertion (got want : String)
  | indexOutOfRange (idx len : Nat)
  | uncomparable (tname : String)
  deriving DecidableEq, Repr

/-- Is the dynamic type of this value comparable in the sense of Go's
`==`?  Of the kinds modelled, only func values are uncomparable. -/
def comparableKind : GoVal → Bool
  | .funcV _ => false
  | _ => true

/-- Go `==` on two `interface{}` operands: differing dynamic types compare
unequal without inspecting the values; identical comparable dynamic types
compare by value; an identical uncomparable (func) dynamic type panics at
run time.  Within the comparable kinds of this model value comparison is
decidable equality (IEEE NaN, the one self-unequal Go value, lies outside
the `Rat` float model). -/
def goEq (a b : GoVal) : Except GoPanic Bool :=
  if typeOf a ≠ typeOf b then .ok false
  else if comparableKind a then .ok (decide (a = b))
  else .error (.uncomparable (typeOf a))

/-- Outcome of one assertion call: normal return with a value, a
propagating runtime panic, or the deliberate hard stop of the test unit
performed by `t.FailNow()`. -/
inductive Res (α : Type) where
  | ok (a : α) (s : TestState)
  | panicked (p : GoPanic) (s : TestState)
  | fatal (s : TestState)
  deriving DecidableEq, Repr

/-- The test state carried by an outcome. -/
def Res.st : Res α → TestState
  | .ok _ s => s
  | .panicked _ s => s
  | .fatal s => s

/-- Model of `Test.Attest` (tests.go:399-408): if `that` is false, print the
message (as-is when there are no formatters, otherwise via `fmt.Printf`)
and `t.Fail()`.  Pure state transformer: it never panics or stops. -/
def attest (s : TestState) (that : Bool) (message : GoStr)
    (formatters : List GoVal) : TestState :=
  if that then s
  else if formatters.isEmpty then s.record (.plain message)
  else s.record (.fmtd message formatters)

/-- The `msg` closure shared by `GreaterThan` (tests.go:481-489) and
`LessThan` (tests.go:528-536): zero extra arguments yield the default
message, exactly one yields `msgAndFmt[0].(string)` verbatim, two or more
yield `fmt.Sprintf(msgAndFmt[0].(string), msgAndFmt[1:]...)`.  A
non-string first element makes the `.(string)` type assertion panic. -/
def resolveMsg (dflt : GoStr) (msgAndFmt : List GoVal) :
    Except GoPanic GoStr :=
  match msgAndFmt with
  | [] => .ok dflt
  | [x] =>
    match x with
    | .strV m => .ok (.lit m)
    | _ => .error (.typeAssertion (typeOf x) "string")
  | x :: rest =>
    match x with
    | .strV m => .ok (.fmtd m rest)
    | _ => .error (.typeAssertion (typeOf x) "string")

/-- One typed arm of `GreaterThan`/`LessThan`: the comparison result is
already computed; Go evaluates `msg()` before entering `Attest`, so a bad
message list panics whether or not the comparison holds. -/
def ordCase (s : TestState) (cond : Bool) (dflt : GoStr)
    (msgAndFmt : List GoVal) : Res Unit :=
  match resolveMsg dflt msgAndFmt with
  | .error p => .panicked p s
  | .ok m => .ok () (attest s cond m [])

/-- Template of `GreaterThan`'s default failure message. -/
def gtDefaultTmpl : String := "Value (%#v) was less than expected (%#v)."

/-- Template of `LessThan`'s default failure message. -/
def ltDefaultTmpl : String := "Value (%#v) was greater than expected (%#v)."

/-- Diagnostic template of `GreaterThan`'s `default:` (unsupported kind)
branch. -/
def gtUnsupportedTmpl : String :=
  "When trying check that %v was greater than %v, found non-numeric types %T and %T."

/-- Diagnostic template of `LessThan`'s `default:` (unsupported kind)
branch. -/
def ltUnsupportedTmpl : String :=
  "Can\x27t check value of %#v: check isn\x27t implemented for type %T"

/-- Model of `Test.GreaterThan(expected, variable, msgAndFmt...)`
(tests.go:472-517).  The Go parameter `variable` is renamed `actual`
(`variable` is a Lean keyword).  The switch dispatches on `actual`'s
runtime type; each typed arm performs the type assertion
`expected.(T)` (panicking on a kind mismatch), then
`t.Attest(actual.(T) > expected.(T), msg())`; the `default:` arm logs the
non-numeric-types diagnostic and calls `t.Fail()` without consulting
`msg()`. -/
def greaterThan (s : TestState) (expected actual : GoVal)
    (msgAndFmt : List GoVal) : Res Unit :=
  let defaultMessage : GoStr := .fmtd gtDefaultTmpl [actual, expected]
  match actual with
  | .intV v =>
    match expected with
    | .intV e => ordCase s (decide (v > e)) defaultMessage msgAndFmt
    | _ => .panicked (.typeAssertion (typeOf expected) "int") s
  | .int8V v =>
    match expected with
    | .int8V e => ordCase s (decide (v > e)) defaultMessage msgAndFmt
    | _ => .panicked (.typeAssertion (typeOf expected) "int8") s
  | .int16V v =>
    match expected with
    | .int16V e => ordCase s (decide (v > e)) defaultMessage msgAndFmt
    | _ => .panicked (.typeAssertion (typeOf expected) "int16") s
  | .int32V v =>
    match expected with
    | .int32V e => ordCase s (decide (v > e)) defaultMessage msgAndFmt
    | _ => .panicked (.typeAssertion (typeOf expected) "int32") s
  | .int64V v =>
    match expected with
    | .int64V e => ordCase s (decide (v > e)) defaultMessage msgAndFmt
    | _ => .panicked (.typeAssertion (typeOf expected) "int64") s
  | .float32V v =>
    match expected with
    | .float32V e => ordCase s (decide (v > e)) defaultMessage msgAndFmt
    | _ => .panicked (.typeAssertion (typeOf expected) "float32") s
  | .float64V v =>
    match expected with
    | .float64V e => ordCase s (decide (v > e)) defaultMessage msgAndFmt
    | _ => .panicked (.typeAssertion (typeOf expected) "float64") s
  | _ =>
    .ok () (s.record (.fmtd (.lit gtUnsupportedTmpl)
      [expected, actual, expected, actual]))

/-- Model of `Test.LessThan(expected, variable, msgAndFmt...)` (tests.go:520-561);
same shape as `greaterThan` with `<` and its own default/unsupported
messages (the `default:` arm logs `(variable, variable)`). -/
def lessThan (s : TestState) (expected actual : GoVal)
    (msgAndFmt : List GoVal) : Res Unit :=
  let defaultMessage : GoStr := .fmtd ltDefaultTmpl [actual, expected]
  match actual with
  | .intV v =>
    match expected with
    | .intV e => ordCase s (decide (v < e)) defaultMessage msgAndFmt
    | _ => .panicked (.typeAssertion (typeOf expected) "int") s
  | .int8V v =>
    match expected with
    | .int8V e => ordCase s (decide (v < e)) defaultMessage msgAndFmt
    | _ => .panicked (.typeAssertion (typeOf expected) "int8") s
  | .int16V v =>
    match expected with
    | .int16V e => ordCase s (decide (v < e)) defaultMessage msgAndFmt
    | _ => .panicked (.typeAssertion (typeOf expected) "int16") s
  | .int32V v =>
    match expected with
    | .int32V e => ordCase s (decide (v < e)) defaultMessage msgAndFmt
    | _ => .panicked (.typeAssertion (typeOf expected) "int32") s
  | .int64V v =>
    match expected with
    | .int64V e => ordCase s (decide (v < e)) defaultMessage msgAndFmt
    | _ => .panicked (.typeAssertion (typeOf expected) "int64") s
  | .float32V v =>
    match expected with
    | .float32V e => ordCase s (decide (v < e)) defaultMessage msgAndFmt
    | _ => .panicked (.typeAssertion (typeOf expected) "float32") s
  | .float64V v =>
    match expected with
    | .float64V e => ordCase s (decide (v < e)) defaultMessage msgAndFmt
    | _ => .panicked (.typeAssertion (typeOf expected) "float64") s
  | _ =>
    .ok () (s.record (.fmtd (.lit ltUnsupportedTmpl) [actual, actual]))

/-- Template of `Equals`' default type-gate failure message. -/
def eqTypeTmpl : String :=
  "%#v of type %T didn\x27t match the type of %#v, %T; so they can\x27t be compared. "

/-- Template of `Equals`' default value-comparison failure message (passed
through `fmt.Sprintf` before `Attest` sees it, so it reaches `Attest` with
no formatters). -/
def eqValTmpl : String := "Expected %#v (%v) was actually %#v (%v)"

/-- Model of `Test.Equals(var1, var2, msgAndFormatters...)` (tests.go:310-339): two
`Attest` sub-assertions, the runtime-type gate and then the value
comparison, both always attempted.  With a message list, both use
`msgAndFormatters[0].(string)` (a non-string head panics before either is
recorded); with none, each uses its built-in default.  The value
comparison `var1 == var2` is Go interface equality (`goEq`): its panic on
an identical uncomparable dynamic type propagates after the type gate has
been recorded but before the second verdict. -/
def equals (s : TestState) (var1 var2 : GoVal)
    (msgAndFormatters : List GoVal) : Res Unit :=
  match msgAndFormatters with
  | x :: rest =>
    match x with
    | .strV m =>
      let s1 := attest s (decide (typeOf var1 = typeOf var2)) (.lit m) rest
      match goEq var1 var2 with
      | .error p => .panicked p s1
      | .ok b => .ok () (attest s1 b (.lit m) rest)
    | _ => .panicked (.typeAssertion (typeOf x) "string") s
  | [] =>
    let s1 := attest s (decide (typeOf var1 = typeOf var2)) (.lit eqTypeTmpl)
      [var1, var1, var2, var2]
    match goEq var1 var2 with
    | .error p => .panicked p s1
    | .ok b =>
      .ok () (attest s1 b (.fmtd eqValTmpl [var1, var1, var2, var2]) [])

/-- Template of the default message `NotEqual` builds for itself in its
zero-argument branch. -/
def neDefaultTmpl : String :=
  "received equal values of %#+v, expected to not equal."

/-- Model of `Test.NotEqual(var1, var2, msgAndFmt...)` (tests.go:358-372).  If the
runtime types differ it returns at once.  Otherwise, when `msgAndFmt` is
empty, the source recursively calls itself with the default message and
`var1` as formatter — that inner call (same-typed operands, non-empty list
with a string head) reduces to exactly the `Attest` line, which is what is
inlined here — and then, lacking a `return`, falls through to
`msgAndFmt[0].(string)` on the still-empty outer list, an index-out-of-
range panic.  On every path that reaches an `Attest` line, Go evaluates
`var1 != var2` first: an identical uncomparable dynamic type panics there
(inside the recursive call in the zero-argument case), before any verdict
is recorded and before `msgAndFmt[0]` is touched. -/
def notEqual (s : TestState) (var1 var2 : GoVal)
    (msgAndFmt : List GoVal) : Res Unit :=
  if typeOf var1 ≠ typeOf var2 then
    -- types don't match, not equal by default.
    .ok () s
  else
    match goEq var1 var2 with
    | .error p => .panicked p s
    | .ok b =>
      let s1 :=
        if msgAndFmt.isEmpty then
          attest s (!b) (.lit neDefaultTmpl) [var1]
        else s
      match msgAndFmt with
      | [] => .panicked (.indexOutOfRange 0 0) s1
      | x :: rest =>
        match x with
        | .strV m => .ok () (attest s1 (!b) (.lit m) rest)
        | _ => .panicked (.typeAssertion (typeOf x) "string") s1

/-- Outcome of a single synchronous call to the function under test:
normal return, or an unwinding panic carrying its payload. -/
inductive FnOutcome where
  | returned
  | unwound (payload : GoVal)

/-- Did the call unwind with a panic?  A deferred `recover()` observes a
non-nil value exactly in that case (modern Go wraps even `panic(nil)` in a
non-nil `*runtime.PanicNilError`). -/
def FnOutcome.unwinds : FnOutcome → Bool
  | .returned => false
  | .unwound _ => true

/-- A `func(...interface{})` argument: its behaviour on a given argument
list, plus an identifier standing for how the function value prints under
`%v`. -/
structure GoFunc where
  fid : Nat
  run : List GoVal → FnOutcome

/-- Failure message template of `AttestPanics`. -/
def panicsFailTmpl : String := "Function %v didn\x27t cause a panic!"

/-- Failure message template of `AttestNoPanic`. -/
def noPanicFailTmpl : String := "Function %v caused a panic!"

/-- Model of `Test.AttestPanics(fun, args...)` (error_cases.go:14-20): runs
`fun(args...)` under a deferred `recover()` and then
`t.Attest(r != nil, "Function %v didn\x27t cause a panic!", fun)`.  The
recovery boundary absorbs the panic, so the result is always a normal
return. -/
def attestPanics (s : TestState) (f : GoFunc) (args : List GoVal) :
    Res Unit :=
  .ok () (attest s (f.run args).unwinds (.lit panicsFailTmpl)
    [.funcV f.fid])

/-- Model of `Test.AttestNoPanic(fun, args...)` (error_cases.go:23-29): the same
boundary with the complementary condition `r == nil`. -/
def attestNoPanic (s : TestState) (f : GoFunc) (args : List GoVal) :
    Res Unit :=
  .ok () (attest s (!(f.run args).unwinds) (.lit noPanicFailTmpl)
    [.funcV f.fid])

/-- Failure message template of `EatError`. -/
def eatErrorTmpl : String := "When aquiring value %#v, got error %#v"

/-- Model of `Test.EatError(value, err)` (error_cases.go:82-87): `t.Errorf(...)`
when `err` is non-nil; `value` is returned unconditionally.  A Go `error`
is modelled as `Option String` (`none` = nil). -/
def eatError (s : TestState) (value : GoVal) (err : Option String) :
    GoVal × TestState :=
  match err with
  | none => (value, s)
  | some e =>
    (value, s.record (.fmtd (.lit eatErrorTmpl) [value, .errV e]))

/-- Default message template of `StopIf`. -/
def stopIfDefaultTmpl : String := "Fatal error: %#v"

/-- Model of `Test.StopIf(err, msgAndFmt...)` (error_cases.go:68-77): on a non-nil
error, substitute the default message pair when no message was given, then
`log.Printf(msgAndFmt[0].(string), msgAndFmt[1:]...)` and `t.FailNow()`
(the hard stop).  A nil error returns with no effect. -/
def stopIf (s : TestState) (err : Option String)
    (msgAndFmt : List GoVal) : Res Unit :=
  match err with
  | none => .ok () s
  | some e =>
    let m := if msgAndFmt.isEmpty
      then [GoVal.strV stopIfDefaultTmpl, GoVal.errV e]
      else msgAndFmt
    match m with
    | [] => .panicked (.indexOutOfRange 0 0) s -- unreachable: m is non-empty
    | x :: rest =>
      match x with
      | .strV tmpl =>
        .fatal (s.record (if rest.isEmpty then .plain (.lit tmpl)
          else .fmtd (.lit tmpl) rest))
      | _ => .panicked (.typeAssertion (typeOf x) "string") s

/-- Model of `Test.FailOnError(value, err, msgAndFormat...)` (the variant kept only
in src/unnamed/part_000:177-180): `t.StopIf(err, msgAndFormat...)`, then
return `value`; a hard stop or panic inside `StopIf` propagates before the
return is reached. -/
def failOnError (s : TestState) (value : GoVal) (err : Option String)
    (msgAndFormat : List GoVal) : Res GoVal :=
  match stopIf s err msgAndFormat with
  | .ok _ s1 => .ok value s1
  | .panicked p s1 => .panicked p s1
  | .fatal s1 => .fatal s1

/-- Does a template string contain a `%T` (runtime-type-naming) verb? -/
def hasTypeVerb : List Char → Bool
  | [] => false
  | '%' :: 'T' :: _ => true
  | _ :: rest => hasTypeVerb rest

/-- Recording a failure observably changes the test state. -/
theorem record_ne (s : TestState) (d : Diag) : s.record d ≠ s := by
  intro h
  have h2 := congrArg (fun t => t.failures.length) h
  simp [TestState.record] at h2

/-- With no message arguments, a typed ordering arm either leaves the
state alone or records the default diagnostic, according to the
comparison. -/
theorem ordCase_nil (s : TestState) (c : Bool) (d : GoStr) :
    ordCase s c d [] = .ok () (if c then s else s.record (.plain d)) := by
  cases c <;> simp [ordCase, resolveMsg, attest]

/-- On same-kind numeric operands, `greaterThan` is one typed arm with the
comparison `toRat expected < toRat actual`. -/
theorem gt_sameKind {expected actual : GoVal} {k : NumKind}
    (he : classify expected = some k) (ha : classify actual = some k)
    (s : TestState) (msgAndFmt : List GoVal) :
    greaterThan s expected actual msgAndFmt =
      ordCase s (decide (toRat expected < toRat actual))
        (.fmtd gtDefaultTmpl [actual, expected]) msgAndFmt := by
  cases expected <;> cases actual <;>
    simp only [classify, Option.some.injEq, reduceCtorEq] at he ha <;>
    first
      | exact absurd (he.trans ha.symm) (by decide)
      | simp [greaterThan, toRat, gt_iff_lt, Int.cast_lt]

/-- On same-kind numeric operands, `lessThan` is one typed arm with the
comparison `toRat actual < toRat expected`. -/
theorem lt_sameKind {expected actual : GoVal} {k : NumKind}
    (he : classify expected = some k) (ha : classify actual = some k)
    (s : TestState) (msgAndFmt : List GoVal) :
    lessThan s expected actual msgAndFmt =
      ordCase s (decide (toRat actual < toRat expected))
        (.fmtd ltDefaultTmpl [actual, expected]) msgAndFmt := by
  cases expected <;> cases actual <;>
    simp only [classify, Option.some.injEq, reduceCtorEq] at he ha <;>
    first
      | exact absurd (he.trans ha.symm) (by decide)
      | simp [lessThan, toRat, Int.cast_lt]

/-- Claim C1: on same-kind numeric operands, `GreaterThan` records no
failure iff `actual > expected` and `LessThan` records no failure iff
`actual < expected`; on equal operands neither inequality holds, so both
record a failure (strict, non-inclusive comparisons).  The third conjunct
shows recording a failure observably changes the state. -/
theorem greaterThan_lessThan_strict (s : TestState) (k : NumKind)
    (expected actual : GoVal)
    (he : classify expected = some k) (ha : classify actual = some k) :
    greaterThan s expected actual [] =
      .ok () (if toRat expected < toRat actual then s
        else s.record (.plain (.fmtd gtDefaultTmpl [actual, expected])))
    ∧ lessThan s expected actual [] =
      .ok () (if toRat actual < toRat expected then s
        else s.record (.plain (.fmtd ltDefaultTmpl [actual, expected])))
    ∧ ∀ d : Diag, s.record d ≠ s := by
  refine ⟨?_, ?_, record_ne s⟩
  · rw [gt_sameKind he ha, ordCase_nil]
    by_cases h : toRat expected < toRat actual <;> simp [h]
  · rw [lt_sameKind he ha, ordCase_nil]
    by_cases h : toRat actual < toRat expected <;> simp [h]

/-- Witness for C1 at `GreaterThan(int8(1), int8(2))` /
`LessThan(int8(1), int8(2))`. -/
theorem greaterThan_lessThan_strict_witness :
    classify (GoVal.int8V 1) = some NumKind.i8 ∧
    (greaterThan ⟨[]⟩ (GoVal.int8V 1) (GoVal.int8V 2) [] =
      .ok () (if toRat (GoVal.int8V 1) < toRat (GoVal.int8V 2)
        then (⟨[]⟩ : TestState)
        else TestState.record ⟨[]⟩
          (.plain (.fmtd gtDefaultTmpl [GoVal.int8V 2, GoVal.int8V 1])))
    ∧ lessThan ⟨[]⟩ (GoVal.int8V 1) (GoVal.int8V 2) [] =
      .ok () (if toRat (GoVal.int8V 2) < toRat (GoVal.int8V 1)
        then (⟨[]⟩ : TestState)
        else TestState.record ⟨[]⟩
          (.plain (.fmtd ltDefaultTmpl [GoVal.int8V 2, GoVal.int8V 1])))
    ∧ ∀ d : Diag, TestState.record ⟨[]⟩ d ≠ ⟨[]⟩) :=
  ⟨rfl, greaterThan_lessThan_strict ⟨[]⟩ .i8 _ _ rfl rfl⟩

/-- Claim C2: the three-way message-resolution rule, observed on a failing
`GreaterThan`: no extra arguments yield the built-in default diagnostic
built from the operands; exactly one string argument is used verbatim as
the whole message (structurally unformatted, even if it contains
printf-style verbs); two or more make the first a template formatted with
the rest. -/
theorem message_resolution_three_way (s : TestState) (k : NumKind)
    (expected actual : GoVal)
    (he : classify expected = some k) (ha : classify actual = some k)
    (hfail : ¬ toRat expected < toRat actual) :
    greaterThan s expected actual [] =
      .ok () (s.record (.plain (.fmtd gtDefaultTmpl [actual, expected])))
    ∧ (∀ m : String, greaterThan s expected actual [.strV m] =
        .ok () (s.record (.plain (.lit m))))
    ∧ (∀ (m : String) (a : GoVal) (rest : List GoVal),
        greaterThan s expected actual (.strV m :: a :: rest) =
          .ok () (s.record (.plain (.fmtd m (a :: rest))))) := by
  refine ⟨?_, fun m => ?_, fun m a rest => ?_⟩
  · rw [gt_sameKind he ha, ordCase_nil]; simp [hfail]
  · rw [gt_sameKind he ha]; simp [ordCase, resolveMsg, attest, hfail]
  · rw [gt_sameKind he ha]; simp [ordCase, resolveMsg, attest, hfail]

/-- Witness for C2 at `GreaterThan(int8(2), int8(1))`. -/
theorem message_resolution_three_way_witness :
    classify (GoVal.int8V 2) = some NumKind.i8
    ∧ ¬ toRat (GoVal.int8V 2) < toRat (GoVal.int8V 1)
    ∧ (greaterThan ⟨[]⟩ (GoVal.int8V 2) (GoVal.int8V 1) [] =
        .ok () (TestState.record ⟨[]⟩
          (.plain (.fmtd gtDefaultTmpl [GoVal.int8V 1, GoVal.int8V 2])))
      ∧ (∀ m : String,
          greaterThan ⟨[]⟩ (GoVal.int8V 2) (GoVal.int8V 1) [.strV m] =
            .ok () (TestState.record ⟨[]⟩ (.plain (.lit m))))
      ∧ (∀ (m : String) (a : GoVal) (rest : List GoVal),
          greaterThan ⟨[]⟩ (GoVal.int8V 2) (GoVal.int8V 1)
              (.strV m :: a :: rest) =
            .ok () (TestState.record ⟨[]⟩ (.plain (.fmtd m (a :: rest)))))) :=
  ⟨rfl, by decide,
    message_resolution_three_way ⟨[]⟩ .i8 _ _ rfl rfl (by decide)⟩

/-- Claim C3 (code bug in the source): the spec's invariant says no
non-hard-stop assertion call propagates a language-level panic, but
`NotEqual` on same-typed operands with no message arguments records the
verdict via its recursive call and then, missing a `return`, falls through
to `msgAndFmt[0]` on the empty list: evaluated at
`NotEqual("a", "a")`, the call propagates an index-out-of-range panic. -/
theorem notEqual_panic_on_equal_pair :
    notEqual ⟨[]⟩ (.strV "a") (.strV "a") [] =
      .panicked (.indexOutOfRange 0 0)
        (TestState.record ⟨[]⟩ (.fmtd (.lit neDefaultTmpl) [.strV "a"])) := by
  decide

/-- Claim C4: when the actual operand classifies as unsupported (complex
numbers, non-numeric types), `GreaterThan` and `LessThan` record exactly
one soft failure whose diagnostic template names the offending runtime
type(s) via `%T`, returning normally — no hard stop, no panic — whatever
the message arguments are. -/
theorem unsupported_kind_soft_failure (expected actual : GoVal)
    (h : classify actual = none) (s : TestState) (msgAndFmt : List GoVal) :
    greaterThan s expected actual msgAndFmt =
      .ok () (s.record (.fmtd (.lit gtUnsupportedTmpl)
        [expected, actual, expected, actual]))
    ∧ lessThan s expected actual msgAndFmt =
      .ok () (s.record (.fmtd (.lit ltUnsupportedTmpl) [actual, actual]))
    ∧ hasTypeVerb gtUnsupportedTmpl.toList = true
    ∧ hasTypeVerb ltUnsupportedTmpl.toList = true := by
  refine ⟨?_, ?_, by decide, by decide⟩ <;>
    cases actual <;> simp_all [classify, greaterThan, lessThan]

/-- Witness for C4 at complex128 operands. -/
theorem unsupported_kind_soft_failure_witness :
    classify (GoVal.complex128V 2 0) = none ∧
    (greaterThan ⟨[]⟩ (GoVal.complex128V 1 0) (GoVal.complex128V 2 0) [] =
      .ok () (TestState.record ⟨[]⟩ (.fmtd (.lit gtUnsupportedTmpl)
        [GoVal.complex128V 1 0, GoVal.complex128V 2 0,
         GoVal.complex128V 1 0, GoVal.complex128V 2 0]))
    ∧ lessThan ⟨[]⟩ (GoVal.complex128V 1 0) (GoVal.complex128V 2 0) [] =
      .ok () (TestState.record ⟨[]⟩ (.fmtd (.lit ltUnsupportedTmpl)
        [GoVal.complex128V 2 0, GoVal.complex128V 2 0]))
    ∧ hasTypeVerb gtUnsupportedTmpl.toList = true
    ∧ hasTypeVerb ltUnsupportedTmpl.toList = true) :=
  ⟨rfl, unsupported_kind_soft_failure (GoVal.complex128V 1 0)
    (GoVal.complex128V 2 0) rfl ⟨[]⟩ []⟩

/-- Claim C5, counterexample to the claim as stated: `Equals(x, x)` does
not pass for every value x — at a func-valued operand the value comparison
`var1 == var2` panics on the uncomparable dynamic type (after the type
gate passes, before any second verdict), so the call neither passes nor
returns normally. -/
theorem equals_reflexivity_counterexample :
    equals ⟨[]⟩ (GoVal.funcV 0) (GoVal.funcV 0) [] =
      .panicked (.uncomparable "func(...interface \x7b\x7d)") ⟨[]⟩
    ∧ equals ⟨[]⟩ (GoVal.funcV 0) (GoVal.funcV 0) [] ≠ .ok () ⟨[]⟩ := by
  decide

/-- Claim C5 (amended): `Equals` performs two independently recorded
sub-assertions, the runtime-type gate then the value comparison, the
latter attempted even when the gate fails: `Equals(x, x)` records nothing
for every value x of comparable dynamic type (func-typed operands instead
panic at the value comparison; IEEE NaN floats, the program values outside
this model, fail value equality), and on a type mismatch both the
type-gate failure and the value failure are recorded — so at least one
failure whenever the runtime types differ, regardless of
display-equality. -/
theorem equals_two_subassertions :
    (∀ (s : TestState) (x : GoVal), comparableKind x = true →
        equals s x x [] = .ok () s)
    ∧ (∀ (s : TestState) (a b : GoVal), typeOf a ≠ typeOf b →
        equals s a b [] =
          .ok () ((s.record (.fmtd (.lit eqTypeTmpl) [a, a, b, b])).record
            (.plain (.fmtd eqValTmpl [a, a, b, b])))) := by
  constructor
  · intro s x hc; simp [equals, goEq, attest, hc]
  · intro s a b h
    simp [equals, goEq, attest, h]

/-- Witness for C5 at `Equals(1, 1)` and `Equals("5", 5)`. -/
theorem equals_two_subassertions_witness :
    comparableKind (GoVal.intV 1) = true
    ∧ (equals ⟨[]⟩ (GoVal.intV 1) (GoVal.intV 1) [] = .ok () ⟨[]⟩)
    ∧ typeOf (GoVal.strV "5") ≠ typeOf (GoVal.intV 5)
    ∧ equals ⟨[]⟩ (GoVal.strV "5") (GoVal.intV 5) [] =
        .ok () ((TestState.record ⟨[]⟩ (.fmtd (.lit eqTypeTmpl)
            [GoVal.strV "5", GoVal.strV "5", GoVal.intV 5,
             GoVal.intV 5])).record
          (.plain (.fmtd eqValTmpl
            [GoVal.strV "5", GoVal.strV "5", GoVal.intV 5, GoVal.intV 5]))) :=
  ⟨rfl, equals_two_subassertions.1 ⟨[]⟩ _ rfl, by decide,
    equals_two_subassertions.2 ⟨[]⟩ _ _ (by decide)⟩

/-- Claim C6: when the runtime types differ, `NotEqual` returns
immediately with the state untouched — no verdict from value inspection is
recorded, whatever the message arguments, even for display-equal pairs. -/
theorem notEqual_type_mismatch_trivial (var1 var2 : GoVal)
    (h : typeOf var1 ≠ typeOf var2) (s : TestState)
    (msgAndFmt : List GoVal) :
    notEqual s var1 var2 msgAndFmt = .ok () s := by
  simp [notEqual, h]

/-- Witness for C6 at `NotEqual("5", int8(5))`. -/
theorem notEqual_type_mismatch_trivial_witness :
    typeOf (GoVal.strV "5") ≠ typeOf (GoVal.int8V 5) ∧
    notEqual ⟨[]⟩ (GoVal.strV "5") (GoVal.int8V 5) [] = .ok () ⟨[]⟩ :=
  ⟨by decide, notEqual_type_mismatch_trivial _ _ (by decide) ⟨[]⟩ []⟩

/-- Claim C7: `AttestPanics` passes exactly when the wrapped call unwinds
with a panic (which its recovery boundary absorbs: the result is a normal
return either way) and fails when the call returns normally;
`AttestNoPanic` is its exact complement. -/
theorem panic_capture_complement (s : TestState) (f : GoFunc)
    (args : List GoVal) :
    attestPanics s f args =
      .ok () (if (f.run args).unwinds then s
        else s.record (.fmtd (.lit panicsFailTmpl) [.funcV f.fid]))
    ∧ attestNoPanic s f args =
      .ok () (if (f.run args).unwinds then
        s.record (.fmtd (.lit noPanicFailTmpl) [.funcV f.fid]) else s) := by
  constructor <;> cases h : f.run args <;>
    simp [attestPanics, attestNoPanic, attest, FnOutcome.unwinds, h]

/-- Claim C8: `EatError` returns the value unchanged in both cases; a nil
error records nothing and a non-nil error records exactly one soft
failure. -/
theorem eatError_passthrough (s : TestState) (v : GoVal) :
    eatError s v none = (v, s)
    ∧ (∀ e : String, eatError s v (some e) =
        (v, s.record (.fmtd (.lit eatErrorTmpl) [v, .errV e])))
    ∧ (∀ e : String, ((eatError s v (some e)).2).failures.length
        = s.failures.length + 1) := by
  refine ⟨rfl, fun e => rfl, fun e => ?_⟩
  simp [eatError, TestState.record]

/-- Claim C9: with a nil error `StopIf` and `FailOnError` have no effect
(`FailOnError` returning its value normally); with a non-nil error they
record one failure and end in the hard stop (`fatal`), the outcome that
aborts the remaining body of the test unit, both under the default message
and under a caller-supplied string message. -/
theorem stop_family :
    (∀ (s : TestState) (m : List GoVal), stopIf s none m = .ok () s)
    ∧ (∀ (s : TestState) (v : GoVal) (m : List GoVal),
        failOnError s v none m = .ok v s)
    ∧ (∀ (s : TestState) (e : String),
        stopIf s (some e) [] =
          .fatal (s.record (.fmtd (.lit stopIfDefaultTmpl) [.errV e])))
    ∧ (∀ (s : TestState) (e tmpl : String) (rest : List GoVal),
        stopIf s (some e) (.strV tmpl :: rest) =
          .fatal (s.record (if rest.isEmpty then .plain (.lit tmpl)
            else .fmtd (.lit tmpl) rest)))
    ∧ (∀ (s : TestState) (v : GoVal) (e : String),
        failOnError s v (some e) [] =
          .fatal (s.record (.fmtd (.lit stopIfDefaultTmpl) [.errV e]))) := by
  exact ⟨fun s m => rfl, fun s v m => rfl, fun s e => rfl,
    fun s e tmpl rest => rfl, fun s v e => rfl⟩

/-- Claim C10, counterexample to the claim as stated: at a same-typed
func-valued pair, `NotEqual` with no message arguments panics from the
value comparison `var1 != var2` inside the recursive call — the
uncomparable-dynamic-type panic, with nothing recorded — and never reaches
`msgAndFmt[0]`, so the asserted index-out-of-range panic is false there. -/
theorem notEqual_zero_args_counterexample :
    typeOf (GoVal.funcV 0) = typeOf (GoVal.funcV 1)
    ∧ notEqual ⟨[]⟩ (GoVal.funcV 0) (GoVal.funcV 1) [] =
        .panicked (.uncomparable "func(...interface \x7b\x7d)") ⟨[]⟩
    ∧ GoPanic.uncomparable "func(...interface \x7b\x7d)" ≠
        .indexOutOfRange 0 0 := by
  decide

/-- Claim C10 (amended): on any same-typed pair of comparable dynamic
type, `NotEqual` with no message arguments first records the verdict of
its recursive call (a failure under the default message exactly when the
values are equal) and then, the recursive branch not returning, propagates
an index-out-of-range panic from `msgAndFmt[0]` on the empty argument
list; a same-typed uncomparable (func) pair instead panics from the value
comparison itself, recording nothing. -/
theorem notEqual_zero_args_index_panic (s : TestState) (x y : GoVal)
    (h : typeOf x = typeOf y) (hc : comparableKind x = true) :
    notEqual s x y [] =
      .panicked (.indexOutOfRange 0 0)
        (if x = y then s.record (.fmtd (.lit neDefaultTmpl) [x]) else s) := by
  by_cases hxy : x = y
  · subst hxy
    simp [notEqual, goEq, attest, hc]
  · simp [notEqual, goEq, attest, h, hc, hxy]

/-- Witness for C10 at `NotEqual(1, 2)`. -/
theorem notEqual_zero_args_index_panic_witness :
    typeOf (GoVal.intV 1) = typeOf (GoVal.intV 2)
    ∧ comparableKind (GoVal.intV 1) = true
    ∧ notEqual ⟨[]⟩ (GoVal.intV 1) (GoVal.intV 2) [] =
      .panicked (.indexOutOfRange 0 0)
        (if (GoVal.intV 1 : GoVal) = GoVal.intV 2 then
          TestState.record ⟨[]⟩ (.fmtd (.lit neDefaultTmpl) [GoVal.intV 1])
         else ⟨[]⟩) :=
  ⟨rfl, rfl, notEqual_zero_args_index_panic ⟨[]⟩ _ _ rfl rfl⟩

end Attest
